import Mathlib

/-!
Verification of the trajectory-simulation core of `src/app/page.js`
(an interactive cannon projectile-motion visualizer).

The source is JavaScript floating-point code over `Math.sin` / `Math.cos` /
`Math.sqrt`; it is embedded here with real-number semantics (`ℝ`), keeping
the source's formulas, evaluation order and guards. The React component's
mutable state (`useState` hooks and refs) is embedded as an explicit state
record, and the per-frame animation callback as a state-transition function.
-/

/-- `const GRAVITY = 9.81` (m/s²). -/
noncomputable def GRAVITY : ℝ := 9.81

/-- `const MOUNT_HEIGHT = 1.5` (m). -/
noncomputable def MOUNT_HEIGHT : ℝ := 1.5

/-- `const BARREL_LENGTH = 3` (m). -/
noncomputable def BARREL_LENGTH : ℝ := 3

/-- `calculateTrajectory(angle, v0, time, y0 = 0)`: the position `{x, y}` of
the projectile at time `time`, from the kinematic equations
`x = v0·cos(θ)·t`, `y = y0 + v0·sin(θ)·t − ½·g·t²` with `θ = angle·π/180`. -/
noncomputable def calculateTrajectory (angle v0 time y0 : ℝ) : ℝ × ℝ :=
  let angleRad := angle * Real.pi / 180
  let vx := v0 * Real.cos angleRad
  let vy := v0 * Real.sin angleRad
  let x := vx * time
  let y := y0 + vy * time - 0.5 * GRAVITY * time * time
  (x, y)

/-- `calculateFlightTime(angle, v0, y0 = 0)`: the positive root of
`y(t) = 0` by the quadratic formula, `0` when the discriminant
`vy² + 2·g·y0` is negative. -/
noncomputable def calculateFlightTime (angle v0 y0 : ℝ) : ℝ :=
  let angleRad := angle * Real.pi / 180
  let vy := v0 * Real.sin angleRad
  let discriminant := vy * vy + 2 * GRAVITY * y0
  if discriminant < 0 then 0 else (vy + Real.sqrt discriminant) / GRAVITY

/-- `calculateRange(angle, v0, y0 = 0)`: horizontal distance
`vx · t_flight` covered at the flight time. -/
noncomputable def calculateRange (angle v0 y0 : ℝ) : ℝ :=
  let t_flight := calculateFlightTime angle v0 y0
  let angleRad := angle * Real.pi / 180
  let vx := v0 * Real.cos angleRad
  vx * t_flight

/-- `calculateMaxHeight(angle, v0, y0 = 0)`: `y0 + vy²/(2g)`. -/
noncomputable def calculateMaxHeight (angle v0 y0 : ℝ) : ℝ :=
  let angleRad := angle * Real.pi / 180
  let vy := v0 * Real.sin angleRad
  y0 + (vy * vy) / (2 * GRAVITY)

/-- The muzzle's launch height, inlined in `updateTrajectoryPreview` and
`fireProjectile` as `y0 = MOUNT_HEIGHT + BARREL_LENGTH * Math.sin(angleRad)`. -/
noncomputable def muzzleHeight (angle : ℝ) : ℝ :=
  MOUNT_HEIGHT + BARREL_LENGTH * Real.sin (angle * Real.pi / 180)

/-- The muzzle's horizontal offset, inlined in `updateTrajectoryPreview`
(`muzzleX`) and `fireProjectile` (`startX`) as
`BARREL_LENGTH * Math.cos(angleRad)`. -/
noncomputable def muzzleOffsetX (angle : ℝ) : ℝ :=
  BARREL_LENGTH * Real.cos (angle * Real.pi / 180)

section KinematicsLemmas

/-- For an angle in the UI's degree range the radian measure lies in `[0, π]`,
so its sine is nonnegative. -/
lemma sin_angleRad_nonneg {angle : ℝ} (h15 : 15 ≤ angle) (h90 : angle ≤ 90) :
    0 ≤ Real.sin (angle * Real.pi / 180) := by
  have hpi := Real.pi_pos
  apply Real.sin_nonneg_of_nonneg_of_le_pi
  · positivity
  · rw [div_le_iff₀ (by norm_num)]
    nlinarith

/-- The flight-time discriminant is nonnegative for a nonnegative launch
height. -/
lemma discriminant_nonneg {angle v0 y0 : ℝ} (hy : 0 ≤ y0) :
    0 ≤ v0 * Real.sin (angle * Real.pi / 180) * (v0 * Real.sin (angle * Real.pi / 180)) +
      2 * GRAVITY * y0 := by
  have h1 : 0 ≤ v0 * Real.sin (angle * Real.pi / 180) * (v0 * Real.sin (angle * Real.pi / 180)) :=
    mul_self_nonneg _
  have h2 : (0 : ℝ) ≤ 2 * GRAVITY * y0 := by
    have : (0 : ℝ) < GRAVITY := by norm_num [GRAVITY]
    positivity
  linarith

/-- With a nonnegative discriminant, `calculateFlightTime` takes the
quadratic-formula branch. -/
lemma calculateFlightTime_of_disc_nonneg {angle v0 y0 : ℝ}
    (h : 0 ≤ v0 * Real.sin (angle * Real.pi / 180) * (v0 * Real.sin (angle * Real.pi / 180)) +
      2 * GRAVITY * y0) :
    calculateFlightTime angle v0 y0 =
      (v0 * Real.sin (angle * Real.pi / 180) +
        Real.sqrt (v0 * Real.sin (angle * Real.pi / 180) * (v0 * Real.sin (angle * Real.pi / 180)) +
          2 * GRAVITY * y0)) / GRAVITY := by
  rw [calculateFlightTime]
  simp only [if_neg (not_lt.mpr h)]

/-- Evaluating the trajectory's height at the computed flight time gives
exactly zero (launch height nonnegative). -/
lemma traj_y_at_flightTime {angle v0 y0 : ℝ} (hy : 0 ≤ y0) :
    (calculateTrajectory angle v0 (calculateFlightTime angle v0 y0) y0).2 = 0 := by
  set vy := v0 * Real.sin (angle * Real.pi / 180) with hvy
  have hd : 0 ≤ vy * vy + 2 * GRAVITY * y0 := discriminant_nonneg hy
  have ht : calculateFlightTime angle v0 y0 = (vy + Real.sqrt (vy * vy + 2 * GRAVITY * y0)) / GRAVITY :=
    calculateFlightTime_of_disc_nonneg hd
  have hs : Real.sqrt (vy * vy + 2 * GRAVITY * y0) * Real.sqrt (vy * vy + 2 * GRAVITY * y0) =
      vy * vy + 2 * GRAVITY * y0 := Real.mul_self_sqrt hd
  have hG : (GRAVITY : ℝ) ≠ 0 := by norm_num [GRAVITY]
  rw [calculateTrajectory, ht]
  show y0 + vy * ((vy + Real.sqrt (vy * vy + 2 * GRAVITY * y0)) / GRAVITY) -
      0.5 * GRAVITY * ((vy + Real.sqrt (vy * vy + 2 * GRAVITY * y0)) / GRAVITY) *
        ((vy + Real.sqrt (vy * vy + 2 * GRAVITY * y0)) / GRAVITY) = 0
  field_simp
  linear_combination (-(GRAVITY * GRAVITY) / 2) * hs

end KinematicsLemmas

/-- C1. Round-trip: for every angle in `[15, 90]`, `v0` in `[10, 100]` and
`y0 ≥ 0`, the `y`-component of
`calculateTrajectory(angle, v0, calculateFlightTime(angle, v0, y0), y0)` is
approximately `0`, within tolerance `1e-6` (in the real-number semantics it
is exactly `0`). -/
theorem roundtrip_y_at_flightTime (angle v0 y0 : ℝ)
    (h15 : 15 ≤ angle) (h90 : angle ≤ 90) (hv1 : 10 ≤ v0) (hv2 : v0 ≤ 100) (hy : 0 ≤ y0) :
    |(calculateTrajectory angle v0 (calculateFlightTime angle v0 y0) y0).2| ≤ 1 / 1000000 := by
  rw [traj_y_at_flightTime hy]
  norm_num

/-- Witness for C1 at `angle = 45`, `v0 = 20`, `y0 = 0`. -/
theorem roundtrip_y_at_flightTime_witness :
    |(calculateTrajectory 45 20 (calculateFlightTime 45 20 0) 0).2| ≤ 1 / 1000000 :=
  roundtrip_y_at_flightTime 45 20 0 (by norm_num) (by norm_num) (by norm_num)
    (by norm_num) (by norm_num)

/-- C4. Non-negative flight time: for every angle in `[15, 90]`, `v0 ≥ 0`
and any `y0`, `calculateFlightTime angle v0 y0 ≥ 0`; it returns exactly `0`
when the discriminant `vy² + 2·g·y0` is negative, and `(vy + √disc)/g`
otherwise. -/
theorem flightTime_nonneg_cases (angle v0 y0 : ℝ)
    (h15 : 15 ≤ angle) (h90 : angle ≤ 90) (hv : 0 ≤ v0) :
    0 ≤ calculateFlightTime angle v0 y0 ∧
    (v0 * Real.sin (angle * Real.pi / 180) * (v0 * Real.sin (angle * Real.pi / 180)) +
        2 * GRAVITY * y0 < 0 → calculateFlightTime angle v0 y0 = 0) ∧
    (0 ≤ v0 * Real.sin (angle * Real.pi / 180) * (v0 * Real.sin (angle * Real.pi / 180)) +
        2 * GRAVITY * y0 →
      calculateFlightTime angle v0 y0 =
        (v0 * Real.sin (angle * Real.pi / 180) +
          Real.sqrt (v0 * Real.sin (angle * Real.pi / 180) *
              (v0 * Real.sin (angle * Real.pi / 180)) + 2 * GRAVITY * y0)) / GRAVITY) := by
  have hvy : 0 ≤ v0 * Real.sin (angle * Real.pi / 180) :=
    mul_nonneg hv (sin_angleRad_nonneg h15 h90)
  refine ⟨?_, ?_, fun h => calculateFlightTime_of_disc_nonneg h⟩
  · rw [calculateFlightTime]
    by_cases h : v0 * Real.sin (angle * Real.pi / 180) * (v0 * Real.sin (angle * Real.pi / 180)) +
        2 * GRAVITY * y0 < 0
    · simp only [if_pos h]
      exact le_refl 0
    · simp only [if_neg h]
      have hs : 0 ≤ Real.sqrt (v0 * Real.sin (angle * Real.pi / 180) *
          (v0 * Real.sin (angle * Real.pi / 180)) + 2 * GRAVITY * y0) := Real.sqrt_nonneg _
      have hG : (0 : ℝ) < GRAVITY := by norm_num [GRAVITY]
      positivity
  · intro h
    rw [calculateFlightTime]
    simp only [if_pos h]

/-- Witness for C4 at `angle = 45`, `v0 = 20`, `y0 = 0`. -/
theorem flightTime_nonneg_cases_witness :
    0 ≤ calculateFlightTime 45 20 0 ∧
    (20 * Real.sin (45 * Real.pi / 180) * (20 * Real.sin (45 * Real.pi / 180)) +
        2 * GRAVITY * 0 < 0 → calculateFlightTime 45 20 0 = 0) ∧
    (0 ≤ 20 * Real.sin (45 * Real.pi / 180) * (20 * Real.sin (45 * Real.pi / 180)) +
        2 * GRAVITY * 0 →
      calculateFlightTime 45 20 0 =
        (20 * Real.sin (45 * Real.pi / 180) +
          Real.sqrt (20 * Real.sin (45 * Real.pi / 180) * (20 * Real.sin (45 * Real.pi / 180)) +
            2 * GRAVITY * 0)) / GRAVITY) :=
  flightTime_nonneg_cases 45 20 0 (by norm_num) (by norm_num) (by norm_num)

section FortyFive

/-- `45` degrees in radians is `π/4`. -/
lemma deg45_rad : (45 : ℝ) * Real.pi / 180 = Real.pi / 4 := by ring

/-- At `angle = 45`, `y0 = 0` the flight time closes to `v·√2 / g`. -/
lemma flightTime_45 (v : ℝ) (hv : 0 ≤ v) :
    calculateFlightTime 45 v 0 = v * Real.sqrt 2 / GRAVITY := by
  rw [calculateFlightTime, deg45_rad, Real.sin_pi_div_four]
  simp only [mul_zero, add_zero]
  rw [if_neg (not_lt.mpr (mul_self_nonneg _))]
  have hvy : 0 ≤ v * (Real.sqrt 2 / 2) := by positivity
  rw [Real.sqrt_mul_self hvy]
  ring

/-- At `angle = 45`, `y0 = 0` the range closes to `v² / g`. -/
lemma range_45 (v : ℝ) (hv : 0 ≤ v) : calculateRange 45 v 0 = v ^ 2 / GRAVITY := by
  have h2 : Real.sqrt 2 * Real.sqrt 2 = 2 := Real.mul_self_sqrt (by norm_num)
  rw [calculateRange, flightTime_45 v hv, deg45_rad, Real.cos_pi_div_four]
  have hG : (GRAVITY : ℝ) ≠ 0 := by norm_num [GRAVITY]
  field_simp
  linear_combination (v ^ 2 * GRAVITY) * h2

/-- At `angle = 45`, `v0 = 20`, `y0 = 0` the max height closes to `100 / g`. -/
lemma maxHeight_45_20 : calculateMaxHeight 45 20 0 = 100 / GRAVITY := by
  have h2 : Real.sqrt 2 * Real.sqrt 2 = 2 := Real.mul_self_sqrt (by norm_num)
  rw [calculateMaxHeight, deg45_rad, Real.sin_pi_div_four]
  have hG : (GRAVITY : ℝ) ≠ 0 := by norm_num [GRAVITY]
  field_simp
  linear_combination (400 * GRAVITY) * h2

end FortyFive

/-- C5. Concrete scenario: for `angle = 45`, `v0 = 20`, `y0 = 0` with
`g = 9.81`, `calculateFlightTime ≈ 2.883`, `calculateRange ≈ 40.77` and
`calculateMaxHeight ≈ 10.19`. -/
theorem scenario_45_20 :
    |calculateFlightTime 45 20 0 - 2.883| < 0.001 ∧
    |calculateRange 45 20 0 - 40.77| < 0.01 ∧
    |calculateMaxHeight 45 20 0 - 10.19| < 0.01 := by
  have hub : Real.sqrt 2 < 1.41422 := by
    rw [Real.sqrt_lt' (by norm_num)]; norm_num
  have hlb : (1.41421 : ℝ) < Real.sqrt 2 := by
    rw [Real.lt_sqrt (by norm_num)]; norm_num
  refine ⟨?_, ?_, ?_⟩
  · rw [flightTime_45 20 (by norm_num), abs_lt]
    simp only [GRAVITY]
    constructor
    · rw [lt_sub_iff_add_lt, lt_div_iff₀ (by norm_num : (0 : ℝ) < 9.81)]
      nlinarith
    · rw [sub_lt_iff_lt_add, div_lt_iff₀ (by norm_num : (0 : ℝ) < 9.81)]
      nlinarith
  · rw [range_45 20 (by norm_num), abs_lt]
    simp only [GRAVITY]
    constructor <;> norm_num
  · rw [maxHeight_45_20, abs_lt]
    simp only [GRAVITY]
    constructor <;> norm_num

/-- C6. Monotonic range: for fixed `angle = 45`, `y0 = 0`, `calculateRange`
is strictly increasing in the velocity. -/
theorem range_strictMono_45 (v1 v2 : ℝ) (h1 : 0 < v1) (h2 : 0 < v2) (h12 : v1 < v2) :
    calculateRange 45 v1 0 < calculateRange 45 v2 0 := by
  rw [range_45 v1 h1.le, range_45 v2 h2.le]
  have hG : (0 : ℝ) < GRAVITY := by norm_num [GRAVITY]
  have hsq : v1 ^ 2 < v2 ^ 2 := by nlinarith
  simp only [GRAVITY]
  gcongr

/-- Witness for C6 at `v1 = 10`, `v2 = 20`. -/
theorem range_strictMono_45_witness : calculateRange 45 10 0 < calculateRange 45 20 0 :=
  range_strictMono_45 10 20 (by norm_num) (by norm_num) (by norm_num)

/-- C9. Max-height is a true upper bound: for every angle in `[15, 90]`,
`v0 ≥ 0`, any `y0` and every time `t`, the `y`-component of
`calculateTrajectory angle v0 t y0` is at most
`calculateMaxHeight angle v0 y0`. -/
theorem traj_le_maxHeight (angle v0 y0 t : ℝ)
    (h15 : 15 ≤ angle) (h90 : angle ≤ 90) (hv : 0 ≤ v0) :
    (calculateTrajectory angle v0 t y0).2 ≤ calculateMaxHeight angle v0 y0 := by
  rw [calculateTrajectory, calculateMaxHeight]
  show y0 + v0 * Real.sin (angle * Real.pi / 180) * t - 0.5 * GRAVITY * t * t ≤
    y0 + v0 * Real.sin (angle * Real.pi / 180) * (v0 * Real.sin (angle * Real.pi / 180)) /
      (2 * GRAVITY)
  simp only [GRAVITY]
  have key : v0 * Real.sin (angle * Real.pi / 180) * t - 0.5 * 9.81 * t * t ≤
      v0 * Real.sin (angle * Real.pi / 180) * (v0 * Real.sin (angle * Real.pi / 180)) /
        (2 * 9.81) := by
    rw [le_div_iff₀ (by norm_num : (0 : ℝ) < 2 * 9.81)]
    nlinarith [sq_nonneg (v0 * Real.sin (angle * Real.pi / 180) - 9.81 * t)]
  linarith [key]

/-- Witness for C9 at `angle = 45`, `v0 = 20`, `y0 = 0`, `t = 1`. -/
theorem traj_le_maxHeight_witness :
    (calculateTrajectory 45 20 1 0).2 ≤ calculateMaxHeight 45 20 0 :=
  traj_le_maxHeight 45 20 0 1 (by norm_num) (by norm_num) (by norm_num)

section Preview

/-- `calculateFlightTime` is nonnegative whenever the launch's vertical
speed `v0·sin(θ)` is nonnegative. -/
lemma calculateFlightTime_nonneg {angle v0 : ℝ}
    (hvy : 0 ≤ v0 * Real.sin (angle * Real.pi / 180)) (y0 : ℝ) :
    0 ≤ calculateFlightTime angle v0 y0 := by
  rw [calculateFlightTime]
  by_cases h : v0 * Real.sin (angle * Real.pi / 180) * (v0 * Real.sin (angle * Real.pi / 180)) +
      2 * GRAVITY * y0 < 0
  · simp only [if_pos h]
    exact le_refl 0
  · simp only [if_neg h]
    have hs : 0 ≤ Real.sqrt (v0 * Real.sin (angle * Real.pi / 180) *
        (v0 * Real.sin (angle * Real.pi / 180)) + 2 * GRAVITY * y0) := Real.sqrt_nonneg _
    have hG : (0 : ℝ) < GRAVITY := by norm_num [GRAVITY]
    positivity

/-- The muzzle's launch height is nonnegative in the UI's angle range. -/
lemma muzzleHeight_nonneg {angle : ℝ} (h15 : 15 ≤ angle) (h90 : angle ≤ 90) :
    0 ≤ muzzleHeight angle := by
  rw [muzzleHeight]
  have := sin_angleRad_nonneg h15 h90
  norm_num [MOUNT_HEIGHT, BARREL_LENGTH]
  nlinarith

/-- Between launch and the computed flight time the trajectory's height is
nonnegative (the height is a downward parabola with value `y0 ≥ 0` at `0`
and `0` at the flight time). -/
lemma sample_y_nonneg {angle v0 y0 t : ℝ} (hy : 0 ≤ y0) (ht0 : 0 ≤ t)
    (htf : t ≤ calculateFlightTime angle v0 y0) :
    0 ≤ (calculateTrajectory angle v0 t y0).2 := by
  set vy := v0 * Real.sin (angle * Real.pi / 180) with hvydef
  have hd : 0 ≤ vy * vy + 2 * GRAVITY * y0 := discriminant_nonneg hy
  have htEq : calculateFlightTime angle v0 y0 =
      (vy + Real.sqrt (vy * vy + 2 * GRAVITY * y0)) / GRAVITY :=
    calculateFlightTime_of_disc_nonneg hd
  set s := Real.sqrt (vy * vy + 2 * GRAVITY * y0) with hsdef
  have hs0 : 0 ≤ s := Real.sqrt_nonneg _
  have hss : s * s = vy * vy + 2 * GRAVITY * y0 := Real.mul_self_sqrt hd
  have hG : (0 : ℝ) < GRAVITY := by norm_num [GRAVITY]
  have htG : GRAVITY * t ≤ vy + s := by
    rw [htEq, le_div_iff₀ hG] at htf
    linarith [htf]
  have hsvy : vy ≤ s := by nlinarith [mul_self_nonneg vy]
  have hfac : 0 ≤ (vy + s - GRAVITY * t) * (s - vy + GRAVITY * t) := by
    apply mul_nonneg
    · linarith
    · have : 0 ≤ GRAVITY * t := mul_nonneg hG.le ht0
      linarith
  rw [calculateTrajectory]
  show 0 ≤ y0 + vy * t - 0.5 * GRAVITY * t * t
  nlinarith [hfac, hss, mul_pos hG hG]

/-- `updateTrajectoryPreview()` with the current angle and velocity: samples
`t = (i/steps)·timeOfFlight` for `i = 0, …, steps` (`steps = 100`) from the
muzzle (`y0 = MOUNT_HEIGHT + BARREL_LENGTH·sin θ`, `muzzleX =
BARREL_LENGTH·cos θ`, abbreviated by `muzzleHeight` / `muzzleOffsetX`), and
pushes the world point `(muzzleX + pos.x, pos.y)` only when `pos.y >= 0`. -/
noncomputable def updateTrajectoryPreview (cannonAngle initialVelocity : ℝ) : List (ℝ × ℝ) :=
  let y0 := muzzleHeight cannonAngle
  let timeOfFlight := calculateFlightTime cannonAngle initialVelocity y0
  let steps : ℕ := 100
  let muzzleX := muzzleOffsetX cannonAngle
  (List.range (steps + 1)).filterMap fun (i : ℕ) =>
    let t := ((i : ℝ) / (steps : ℝ)) * timeOfFlight
    let pos := calculateTrajectory cannonAngle initialVelocity t y0
    if 0 ≤ pos.2 then some (muzzleX + pos.1, pos.2) else none

/-- `filterMap` collapses to `map` when the function always succeeds on the
list's members. -/
lemma filterMap_eq_map_of {α β : Type} (l : List α) (f : α → Option β) (g : α → β)
    (h : ∀ i ∈ l, f i = some (g i)) : l.filterMap f = l.map g := by
  induction l with
  | nil => rfl
  | cons a l ih =>
    rw [List.filterMap_cons, h a (List.mem_cons_self a l), List.map_cons,
      ih fun i hi => h i (List.mem_cons_of_mem a hi)]

/-- In the UI's parameter range no preview sample is dropped: the preview is
the full 101-point sequence. -/
lemma preview_eq_map (angle v0 : ℝ) (h15 : 15 ≤ angle) (h90 : angle ≤ 90) (hv : 0 ≤ v0) :
    updateTrajectoryPreview angle v0 = (List.range 101).map fun (i : ℕ) =>
      (muzzleOffsetX angle +
        (calculateTrajectory angle v0
          (((i : ℝ) / 100) * calculateFlightTime angle v0 (muzzleHeight angle))
          (muzzleHeight angle)).1,
       (calculateTrajectory angle v0
          (((i : ℝ) / 100) * calculateFlightTime angle v0 (muzzleHeight angle))
          (muzzleHeight angle)).2) := by
  rw [updateTrajectoryPreview]
  simp only [Nat.cast_ofNat]
  apply filterMap_eq_map_of
  intro i hi
  have hvy : 0 ≤ v0 * Real.sin (angle * Real.pi / 180) :=
    mul_nonneg hv (sin_angleRad_nonneg h15 h90)
  have hy : 0 ≤ muzzleHeight angle := muzzleHeight_nonneg h15 h90
  have htofpos : 0 ≤ calculateFlightTime angle v0 (muzzleHeight angle) :=
    calculateFlightTime_nonneg hvy _
  have hi100 : ((i : ℝ)) ≤ 100 := by
    exact_mod_cast Nat.lt_succ_iff.mp (List.mem_range.mp hi)
  have ht0 : 0 ≤ ((i : ℝ) / 100) * calculateFlightTime angle v0 (muzzleHeight angle) := by
    apply mul_nonneg _ htofpos
    positivity
  have htf : ((i : ℝ) / 100) * calculateFlightTime angle v0 (muzzleHeight angle) ≤
      calculateFlightTime angle v0 (muzzleHeight angle) := by
    apply mul_le_of_le_one_left htofpos
    rw [div_le_one (by norm_num : (0 : ℝ) < 100)]
    exact hi100
  rw [if_pos (sample_y_nonneg hy ht0 htf)]

/-- The trajectory's `x`-component at the flight time is exactly
`calculateRange` (same `vx`, same flight time). -/
lemma traj_x_at_flightTime (angle v0 y0 : ℝ) :
    (calculateTrajectory angle v0 (calculateFlightTime angle v0 y0) y0).1 =
      calculateRange angle v0 y0 := by
  rw [calculateTrajectory, calculateRange]

/-- The preview's last point: the sample at `i = 100`, which lands at world
`x = muzzleOffsetX + calculateRange` with height exactly `0`. -/
lemma preview_getLast (angle v0 : ℝ) (h15 : 15 ≤ angle) (h90 : angle ≤ 90) (hv : 0 ≤ v0) :
    (updateTrajectoryPreview angle v0).getLast? =
      some (muzzleOffsetX angle + calculateRange angle v0 (muzzleHeight angle), 0) := by
  rw [preview_eq_map angle v0 h15 h90 hv]
  rw [List.range_succ, List.map_append, List.map_singleton, List.getLast?_concat]
  have hcast : (((100 : ℕ) : ℝ) / 100) * calculateFlightTime angle v0 (muzzleHeight angle) =
      calculateFlightTime angle v0 (muzzleHeight angle) := by
    norm_num
  rw [hcast, traj_x_at_flightTime,
    traj_y_at_flightTime (muzzleHeight_nonneg h15 h90)]

end Preview

/-- C7 (amended). For every angle in `[15, 90]` and `v0` in `[10, 100]`, the
trajectory preview's last point has height exactly `0` (hence `≤ 0`) and its
horizontal coordinate equals the muzzle's horizontal offset
(`BARREL_LENGTH·cos θ`) plus `calculateRange` at the same inputs — not
`calculateRange` alone: the two differ by the muzzle offset, which can
exceed one sampling step. -/
theorem preview_last_point (angle v0 : ℝ) (h15 : 15 ≤ angle) (h90 : angle ≤ 90)
    (hv1 : 10 ≤ v0) (hv2 : v0 ≤ 100) :
    (updateTrajectoryPreview angle v0).getLast? =
      some (muzzleOffsetX angle + calculateRange angle v0 (muzzleHeight angle), 0) :=
  preview_getLast angle v0 h15 h90 (by linarith)

/-- Witness for C7 (amended) at `angle = 45`, `v0 = 20`. -/
theorem preview_last_point_witness :
    (updateTrajectoryPreview 45 20).getLast? =
      some (muzzleOffsetX 45 + calculateRange 45 20 (muzzleHeight 45), 0) :=
  preview_last_point 45 20 (by norm_num) (by norm_num) (by norm_num) (by norm_num)

/-- C7 counterexample to the claim as stated: at `angle = 30`, `v0 = 10`
the preview's last point exists, but its horizontal coordinate differs from
`calculateRange` at the same inputs by the muzzle offset `3·cos(30°) ≈ 2.6`,
which is far more than one sampling step (`range/100 < 0.14`). -/
theorem preview_consistency_counterexample :
    (updateTrajectoryPreview 30 10).getLast? =
      some (muzzleOffsetX 30 + calculateRange 30 10 (muzzleHeight 30), 0) ∧
    calculateRange 30 10 (muzzleHeight 30) / 100 <
      |muzzleOffsetX 30 + calculateRange 30 10 (muzzleHeight 30) -
        calculateRange 30 10 (muzzleHeight 30)| := by
  have h30 : (30 : ℝ) * Real.pi / 180 = Real.pi / 6 := by ring
  have hmh : muzzleHeight 30 = 3 := by
    rw [muzzleHeight, h30, Real.sin_pi_div_six]
    norm_num [MOUNT_HEIGHT, BARREL_LENGTH]
  have hmx : muzzleOffsetX 30 = 3 * (Real.sqrt 3 / 2) := by
    rw [muzzleOffsetX, h30, Real.cos_pi_div_six]
    norm_num [BARREL_LENGTH]
  refine ⟨preview_getLast 30 10 (by norm_num) (by norm_num) (by norm_num), ?_⟩
  rw [add_sub_cancel_right, hmx, hmh]
  have h3ub : Real.sqrt 3 < 1.8 := by
    rw [Real.sqrt_lt' (by norm_num)]; norm_num
  have h3lb : (1.7 : ℝ) < Real.sqrt 3 := by
    rw [Real.lt_sqrt (by norm_num)]; norm_num
  have h3nn : (0 : ℝ) ≤ Real.sqrt 3 := Real.sqrt_nonneg 3
  have habs : |3 * (Real.sqrt 3 / 2)| = 3 * (Real.sqrt 3 / 2) := by
    apply abs_of_nonneg; positivity
  rw [habs]
  have htof : calculateFlightTime 30 10 3 = (5 + Real.sqrt 83.86) / GRAVITY := by
    rw [calculateFlightTime, h30, Real.sin_pi_div_six]
    rw [show (10 : ℝ) * (1 / 2) * (10 * (1 / 2)) + 2 * GRAVITY * 3 = 83.86 by
      norm_num [GRAVITY]]
    rw [if_neg (by norm_num : ¬(83.86 : ℝ) < 0)]
    norm_num
  have hsub : Real.sqrt 83.86 < 10 := by
    rw [Real.sqrt_lt' (by norm_num)]; norm_num
  have hsnn : (0 : ℝ) ≤ Real.sqrt 83.86 := Real.sqrt_nonneg _
  have hr : calculateRange 30 10 3 < 14 := by
    rw [calculateRange, htof, h30, Real.cos_pi_div_six]
    simp only [GRAVITY]
    rw [show (10 : ℝ) * (Real.sqrt 3 / 2) * ((5 + Real.sqrt 83.86) / 9.81) =
      10 * (Real.sqrt 3 / 2) * (5 + Real.sqrt 83.86) / 9.81 by ring,
      div_lt_iff₀ (by norm_num : (0 : ℝ) < 9.81)]
    nlinarith [mul_lt_mul'' h3ub hsub h3nn hsnn]
  rw [div_lt_iff₀ (by norm_num : (0 : ℝ) < 100)]
  nlinarith

section Camera

/-- The `cameraControlsRef` state: orbit rotation (`rotation.x` is elevation,
`rotation.y` is azimuth), zoom distance and look-at target. -/
structure CameraControls where
  rotationX : ℝ
  rotationY : ℝ
  distance : ℝ
  target : ℝ × ℝ × ℝ

/-- The initial `cameraControlsRef.current` value:
`{rotation: {x: 0.3, y: 0.8}, distance: 30, target: (0, 5, 0)}`. -/
noncomputable def initialCameraControls : CameraControls :=
  { rotationX := 0.3, rotationY := 0.8, distance := 30, target := (0, 5, 0) }

/-- `handleWheel(e)`: `distance += e.deltaY * 0.05` then
`distance = Math.max(5, Math.min(100, distance))`. -/
noncomputable def handleWheel (deltaY : ℝ) (c : CameraControls) : CameraControls :=
  { c with distance := max 5 (min 100 (c.distance + deltaY * 0.05)) }

/-- The four camera preset modes offered by the UI. -/
inductive CameraMode
  | overview
  | follow
  | side
  | closeup

/-- `setCameraPreset(mode)`'s effect on `cameraControlsRef.current` (the
`switch` assigning `rotation`, `distance` and `target` per mode; the eased
eye-position transition it also starts does not touch these fields). -/
noncomputable def setCameraPreset (mode : CameraMode) (c : CameraControls) : CameraControls :=
  match mode with
  | .overview => { c with rotationX := 0.3, rotationY := 0.8, distance := 30, target := (0, 5, 0) }
  | .follow => { c with rotationX := 0.2, rotationY := 0, distance := 15, target := (10, 5, 0) }
  | .side =>
      { c with rotationX := 0.3, rotationY := Real.pi / 2, distance := 35, target := (0, 5, 0) }
  | .closeup => { c with rotationX := 0.2, rotationY := 0.5, distance := 8, target := (0, 3, 0) }

/-- An input event touching the camera controls: a wheel event with its
`deltaY`, or a preset selection. -/
inductive CameraEvent
  | wheel (deltaY : ℝ)
  | preset (mode : CameraMode)

/-- Dispatch one camera event. -/
noncomputable def applyCameraEvent (c : CameraControls) (e : CameraEvent) : CameraControls :=
  match e with
  | .wheel deltaY => handleWheel deltaY c
  | .preset mode => setCameraPreset mode c

/-- Apply a sequence of camera events in order. -/
noncomputable def applyCameraEvents (c : CameraControls) (es : List CameraEvent) : CameraControls :=
  es.foldl applyCameraEvent c

/-- Unfolding one step of the event fold. -/
lemma applyCameraEvents_cons (c : CameraControls) (e : CameraEvent) (es : List CameraEvent) :
    applyCameraEvents c (e :: es) = applyCameraEvents (applyCameraEvent c e) es := rfl

/-- One event preserves the distance bounds `[5, 100]`. -/
lemma applyCameraEvent_distance_bounds {c : CameraControls} (e : CameraEvent)
    (h5 : 5 ≤ c.distance) (h100 : c.distance ≤ 100) :
    5 ≤ (applyCameraEvent c e).distance ∧ (applyCameraEvent c e).distance ≤ 100 := by
  cases e with
  | wheel deltaY =>
    constructor
    · exact le_max_left 5 _
    · exact max_le (by norm_num) (min_le_left 100 _)
  | preset mode =>
    cases mode <;> constructor <;> norm_num [applyCameraEvent, setCameraPreset]

/-- Any event sequence preserves the distance bounds `[5, 100]`. -/
lemma applyCameraEvents_distance_bounds (es : List CameraEvent) (c : CameraControls)
    (h5 : 5 ≤ c.distance) (h100 : c.distance ≤ 100) :
    5 ≤ (applyCameraEvents c es).distance ∧ (applyCameraEvents c es).distance ≤ 100 := by
  induction es generalizing c with
  | nil => exact ⟨h5, h100⟩
  | cons e es ih =>
    have := applyCameraEvent_distance_bounds e h5 h100
    exact ih (applyCameraEvent c e) this.1 this.2

/-- A wheel event of `deltaY = +10000` saturates the distance at `100`
whenever the current distance is at least `-400`. -/
lemma handleWheel_pos_sat {c : CameraControls} (h : -400 ≤ c.distance) :
    (handleWheel 10000 c).distance = 100 := by
  rw [handleWheel]
  show max 5 (min 100 (c.distance + 10000 * 0.05)) = 100
  rw [min_eq_left (by nlinarith), max_eq_right (by norm_num)]

/-- A wheel event of `deltaY = -10000` saturates the distance at `5`
whenever the current distance is at most `505`. -/
lemma handleWheel_neg_sat {c : CameraControls} (h : c.distance ≤ 505) :
    (handleWheel (-10000) c).distance = 5 := by
  rw [handleWheel]
  show max 5 (min 100 (c.distance + -10000 * 0.05)) = 5
  rw [min_eq_right (by nlinarith), max_eq_left (by nlinarith)]

/-- A nonempty run of `deltaY = +10000` wheel events pins the distance
at `100`. -/
lemma wheel_pos_run : ∀ (n : ℕ) (c : CameraControls), -400 ≤ c.distance →
    (applyCameraEvents c (List.replicate (n + 1) (CameraEvent.wheel 10000))).distance = 100 := by
  intro n
  induction n with
  | zero =>
    intro c h
    show (applyCameraEvent c (CameraEvent.wheel 10000)).distance = 100
    exact handleWheel_pos_sat h
  | succ k ih =>
    intro c h
    rw [List.replicate_succ]
    show (applyCameraEvents (applyCameraEvent c (CameraEvent.wheel 10000))
      (List.replicate (k + 1) (CameraEvent.wheel 10000))).distance = 100
    apply ih
    rw [show applyCameraEvent c (CameraEvent.wheel 10000) = handleWheel 10000 c from rfl,
      handleWheel_pos_sat h]
    norm_num

/-- A nonempty run of `deltaY = -10000` wheel events pins the distance
at `5`. -/
lemma wheel_neg_run : ∀ (n : ℕ) (c : CameraControls), c.distance ≤ 505 →
    (applyCameraEvents c (List.replicate (n + 1) (CameraEvent.wheel (-10000)))).distance = 5 := by
  intro n
  induction n with
  | zero =>
    intro c h
    show (applyCameraEvent c (CameraEvent.wheel (-10000))).distance = 5
    exact handleWheel_neg_sat h
  | succ k ih =>
    intro c h
    rw [List.replicate_succ]
    show (applyCameraEvents (applyCameraEvent c (CameraEvent.wheel (-10000)))
      (List.replicate (k + 1) (CameraEvent.wheel (-10000)))).distance = 5
    apply ih
    rw [show applyCameraEvent c (CameraEvent.wheel (-10000)) = handleWheel (-10000) c from rfl,
      handleWheel_neg_sat h]
    norm_num

/-- Every preset leaves the distance at least `-400` and at most `505`
(the four preset distances are `30`, `15`, `35`, `8`). -/
lemma setCameraPreset_distance_range (m : CameraMode) (c : CameraControls) :
    -400 ≤ (setCameraPreset m c).distance ∧ (setCameraPreset m c).distance ≤ 505 := by
  cases m <;> constructor <;> norm_num [setCameraPreset]

end Camera

/-- C8. Distance clamp invariant: from the initial camera state, any
sequence of wheel events and preset selections leaves the distance within
`[5, 100]`; and selecting any camera mode then applying 1000 wheel events
of `deltaY = +10000` leaves `distance = 100`, while 1000 wheel events of
`deltaY = -10000` leave `distance = 5`. -/
theorem camera_distance_clamp :
    (∀ es : List CameraEvent,
      5 ≤ (applyCameraEvents initialCameraControls es).distance ∧
      (applyCameraEvents initialCameraControls es).distance ≤ 100) ∧
    (∀ m : CameraMode,
      (applyCameraEvents initialCameraControls
        (CameraEvent.preset m :: List.replicate 1000 (CameraEvent.wheel 10000))).distance = 100) ∧
    (∀ m : CameraMode,
      (applyCameraEvents initialCameraControls
        (CameraEvent.preset m :: List.replicate 1000 (CameraEvent.wheel (-10000)))).distance = 5) := by
  refine ⟨fun es => applyCameraEvents_distance_bounds es initialCameraControls
    (by norm_num [initialCameraControls]) (by norm_num [initialCameraControls]), ?_, ?_⟩
  · intro m
    rw [applyCameraEvents_cons, show (1000 : ℕ) = 999 + 1 from rfl]
    exact wheel_pos_run 999 _ (setCameraPreset_distance_range m initialCameraControls).1
  · intro m
    rw [applyCameraEvents_cons, show (1000 : ℕ) = 999 + 1 from rfl]
    exact wheel_neg_run 999 _ (setCameraPreset_distance_range m initialCameraControls).2

section FlightStateMachine

/-- The numeric value produced by JS `Number.prototype.toFixed(2)` (the
source stores these two-decimal formatted values in `projectileData`). -/
noncomputable def toFixed2 (x : ℝ) : ℝ := (round (x * 100) : ℤ) / 100

/-- The `projectileData` React state. -/
structure ProjectileData where
  range : ℝ
  maxHeight : ℝ
  timeOfFlight : ℝ
  currentTime : ℝ
  position : ℝ × ℝ

/-- The values `fireProjectile` captures in its `animate` closure for the
whole flight: the launch snapshot, muzzle geometry, flight time, start time
and the camera mode read at fire time. -/
structure FlightParams where
  angle : ℝ
  v0 : ℝ
  y0 : ℝ
  startX : ℝ
  timeOfFlight : ℝ
  startTime : ℝ
  cameraModeAtFire : CameraMode

/-- The simulator's state: the React `useState` values (`cannonAngle`,
`initialVelocity`, `isFiring`, `cameraMode`, `showPanel`, `projectileData`),
the projectile mesh (visibility, world position), `projectileStateRef`
(`active`, `time`), the camera controls and eye position, and the current
flight's captured closure values. -/
structure SimState where
  cannonAngle : ℝ
  initialVelocity : ℝ
  isFiring : Bool
  cameraMode : CameraMode
  showPanel : Bool
  projectileData : ProjectileData
  projectileVisible : Bool
  projectileActive : Bool
  projectileTime : ℝ
  projectilePos : ℝ × ℝ × ℝ
  cameraControls : CameraControls
  cameraPos : ℝ × ℝ × ℝ
  flight : FlightParams

/-- `updateCameraPosition()` and the follow-mode update: the camera eye from
spherical coordinates around the target,
`target + dist·(sin y·cos x, sin x, cos y·cos x)`. -/
noncomputable def sphericalEye (c : CameraControls) : ℝ × ℝ × ℝ :=
  (c.target.1 + c.distance * Real.sin c.rotationY * Real.cos c.rotationX,
   c.target.2.1 + c.distance * Real.sin c.rotationX,
   c.target.2.2 + c.distance * Real.cos c.rotationY * Real.cos c.rotationX)

/-- The component's initial state: `cannonAngle = 45.0`,
`initialVelocity = 20.0`, `isFiring = false`, `cameraMode = "overview"`,
`showPanel = false`, zeroed `projectileData`, a hidden inactive projectile,
the initial camera controls and the initial camera eye `(15, 15, 25)`. -/
noncomputable def initialSimState : SimState where
  cannonAngle := 45
  initialVelocity := 20
  isFiring := false
  cameraMode := CameraMode.overview
  showPanel := false
  projectileData :=
    { range := 0, maxHeight := 0, timeOfFlight := 0, currentTime := 0, position := (0, 0) }
  projectileVisible := false
  projectileActive := false
  projectileTime := 0
  projectilePos := (0, 0, 0)
  cameraControls := initialCameraControls
  cameraPos := (15, 15, 25)
  flight :=
    { angle := 0, v0 := 0, y0 := 0, startX := 0, timeOfFlight := 0, startTime := 0,
      cameraModeAtFire := CameraMode.overview }

/-- `fireProjectile()` invoked at wall-clock `now` (`Date.now()`): closes
the mobile panel, returns if already firing; otherwise captures the launch
snapshot (`y0`, `startX`, `startY`, `timeOfFlight`, `range`, `maxHeight`),
publishes the derived data (two-decimal formatted), shows and activates the
projectile and records the start time. -/
noncomputable def fireProjectile (now : ℝ) (s0 : SimState) : SimState :=
  let s := { s0 with showPanel := false }
  if s.isFiring then s
  else
    let y0 := muzzleHeight s.cannonAngle
    let startX := muzzleOffsetX s.cannonAngle
    let startY := y0
    let timeOfFlight := calculateFlightTime s.cannonAngle s.initialVelocity y0
    let range := calculateRange s.cannonAngle s.initialVelocity y0
    let maxHeight := calculateMaxHeight s.cannonAngle s.initialVelocity y0
    { s with
      isFiring := true
      projectileVisible := true
      projectileData :=
        { range := toFixed2 range
          maxHeight := toFixed2 maxHeight
          timeOfFlight := toFixed2 timeOfFlight
          currentTime := 0
          position := (toFixed2 startX, toFixed2 startY) }
      projectileActive := true
      projectileTime := 0
      flight :=
        { angle := s.cannonAngle
          v0 := s.initialVelocity
          y0 := y0
          startX := startX
          timeOfFlight := timeOfFlight
          startTime := now
          cameraModeAtFire := s.cameraMode } }

/-- One invocation at wall-clock `now` of the `animate` frame callback
created by `fireProjectile`: returns unchanged when the projectile is
inactive; computes `elapsed = (now − startTime)/1000` and the trajectory
position; on `pos.y < 0 || elapsed > timeOfFlight + 0.1` the projectile
lands (deactivate, hide, re-enable firing, re-open the panel); otherwise it
moves the projectile mesh to `(startX + pos.x, pos.y, 0)`, retargets the
camera when the fire-time camera mode was `"follow"`, and publishes the
elapsed time and position. -/
noncomputable def animateTick (now : ℝ) (s : SimState) : SimState :=
  if ¬ s.projectileActive then s
  else
    let elapsed := (now - s.flight.startTime) / 1000
    let pos := calculateTrajectory s.flight.angle s.flight.v0 elapsed s.flight.y0
    if pos.2 < 0 ∨ elapsed > s.flight.timeOfFlight + 0.1 then
      { s with projectileActive := false, projectileVisible := false,
               isFiring := false, showPanel := true }
    else
      let worldX := s.flight.startX + pos.1
      let worldY := pos.2
      let s1 := { s with projectilePos := (worldX, worldY, 0) }
      let s2 :=
        match s1.flight.cameraModeAtFire with
        | CameraMode.follow =>
            let controls := { s1.cameraControls with target := (worldX, worldY, 0) }
            { s1 with cameraControls := controls, cameraPos := sphericalEye controls }
        | _ => s1
      { s2 with projectileData :=
          { s2.projectileData with
              currentTime := toFixed2 elapsed
              position := (toFixed2 worldX, toFixed2 worldY) } }

/-- A `fireProjectile` call while already firing only closes the panel. -/
lemma fireProjectile_of_firing {s : SimState} (t : ℝ) (h : s.isFiring = true) :
    fireProjectile t s = { s with showPanel := false } := by
  rw [fireProjectile]
  simp [h]

/-- A `fireProjectile` call while idle produces the fired state. -/
lemma fireProjectile_of_not_firing {s : SimState} (t : ℝ) (h : s.isFiring = false) :
    fireProjectile t s =
      { s with
        isFiring := true
        showPanel := false
        projectileVisible := true
        projectileData :=
          { range := toFixed2 (calculateRange s.cannonAngle s.initialVelocity
              (muzzleHeight s.cannonAngle))
            maxHeight := toFixed2 (calculateMaxHeight s.cannonAngle s.initialVelocity
              (muzzleHeight s.cannonAngle))
            timeOfFlight := toFixed2 (calculateFlightTime s.cannonAngle s.initialVelocity
              (muzzleHeight s.cannonAngle))
            currentTime := 0
            position := (toFixed2 (muzzleOffsetX s.cannonAngle),
              toFixed2 (muzzleHeight s.cannonAngle)) }
        projectileActive := true
        projectileTime := 0
        flight :=
          { angle := s.cannonAngle
            v0 := s.initialVelocity
            y0 := muzzleHeight s.cannonAngle
            startX := muzzleOffsetX s.cannonAngle
            timeOfFlight := calculateFlightTime s.cannonAngle s.initialVelocity
              (muzzleHeight s.cannonAngle)
            startTime := t
            cameraModeAtFire := s.cameraMode } } := by
  rw [fireProjectile]
  simp [h]

end FlightStateMachine

section TickLemmas

/-- A tick whose landing predicate holds ends the flight: deactivate and
hide the projectile, re-enable firing, re-open the panel; nothing else
changes. -/
lemma animateTick_lands {s : SimState} {now : ℝ} (h : s.projectileActive = true)
    (hland : (calculateTrajectory s.flight.angle s.flight.v0
        ((now - s.flight.startTime) / 1000) s.flight.y0).2 < 0 ∨
      (now - s.flight.startTime) / 1000 > s.flight.timeOfFlight + 0.1) :
    animateTick now s =
      { s with
          projectileActive := false
          projectileVisible := false
          isFiring := false
          showPanel := true } := by
  rw [animateTick]
  simp [h, hland]

/-- A tick whose landing predicate fails keeps the flight active and moves
the projectile mesh to the launch offset plus the computed position. -/
lemma animateTick_continues {s : SimState} {now : ℝ} (h : s.projectileActive = true)
    (hland : ¬ ((calculateTrajectory s.flight.angle s.flight.v0
        ((now - s.flight.startTime) / 1000) s.flight.y0).2 < 0 ∨
      (now - s.flight.startTime) / 1000 > s.flight.timeOfFlight + 0.1)) :
    (animateTick now s).projectileActive = true ∧
    (animateTick now s).projectilePos =
      (s.flight.startX + (calculateTrajectory s.flight.angle s.flight.v0
          ((now - s.flight.startTime) / 1000) s.flight.y0).1,
        (calculateTrajectory s.flight.angle s.flight.v0
          ((now - s.flight.startTime) / 1000) s.flight.y0).2, 0) := by
  rw [animateTick]
  cases hcm : s.flight.cameraModeAtFire <;> simp [h, hland, hcm]

end TickLemmas

/-- C2. At-most-one-flight: from a non-firing state, the first
`fireProjectile` call transitions to firing, and a second call in immediate
succession is a complete no-op — the resulting state (captured parameters,
start time and everything else) equals the state after the first call. -/
theorem fire_twice_single_flight (s : SimState) (t1 t2 : ℝ) (h : s.isFiring = false) :
    (fireProjectile t1 s).isFiring = true ∧
    fireProjectile t2 (fireProjectile t1 s) = fireProjectile t1 s := by
  have h1 : (fireProjectile t1 s).isFiring = true := by
    rw [fireProjectile_of_not_firing t1 h]
  have h2 : (fireProjectile t1 s).showPanel = false := by
    rw [fireProjectile_of_not_firing t1 h]
  refine ⟨h1, ?_⟩
  rw [fireProjectile_of_firing t2 h1, ← h2]

/-- Witness for C2 from the component's initial state. -/
theorem fire_twice_single_flight_witness :
    (fireProjectile 0 initialSimState).isFiring = true ∧
    fireProjectile 1 (fireProjectile 0 initialSimState) = fireProjectile 0 initialSimState :=
  fire_twice_single_flight initialSimState 0 1 rfl

/-- C10. Fire-while-flying panel side effect: a `fireProjectile` call while
a flight is in progress still sets `showPanel` to `false` (the panel close
runs before the `isFiring` guard), and leaves every other piece of state
unchanged. -/
theorem fire_while_flying_sets_panel (s : SimState) (t : ℝ) (h : s.isFiring = true) :
    fireProjectile t s = { s with showPanel := false } :=
  fireProjectile_of_firing t h

/-- The state right after firing from the initial state. -/
noncomputable def firedState : SimState := fireProjectile 0 initialSimState

/-- Witness for C10 at the state right after a first fire. -/
theorem fire_while_flying_sets_panel_witness :
    fireProjectile 2 firedState = { firedState with showPanel := false } :=
  fire_while_flying_sets_panel firedState 2 rfl

/-- C3. Landing predicate: while a flight is active, the tick at wall-clock
`now`, with elapsed time `e = (now − startTime)/1000` and computed position
`pos`, ends the flight if and only if `pos.y < 0` or
`e > timeOfFlight + 0.1`; when it ends it deactivates and hides the
projectile, re-enables firing and re-opens the panel (changing nothing
else); otherwise the projectile stays active and its published world
position is the launch origin offset plus the computed position. -/
theorem tick_landing_iff (s : SimState) (now e : ℝ) (pos : ℝ × ℝ)
    (h : s.projectileActive = true)
    (he : e = (now - s.flight.startTime) / 1000)
    (hpos : pos = calculateTrajectory s.flight.angle s.flight.v0 e s.flight.y0) :
    ((animateTick now s).projectileActive = false ↔
      (pos.2 < 0 ∨ e > s.flight.timeOfFlight + 0.1)) ∧
    ((pos.2 < 0 ∨ e > s.flight.timeOfFlight + 0.1) →
      animateTick now s =
        { s with
            projectileActive := false
            projectileVisible := false
            isFiring := false
            showPanel := true }) ∧
    (¬ (pos.2 < 0 ∨ e > s.flight.timeOfFlight + 0.1) →
      (animateTick now s).projectileActive = true ∧
      (animateTick now s).projectilePos = (s.flight.startX + pos.1, pos.2, 0)) := by
  subst he
  subst hpos
  refine ⟨⟨?_, ?_⟩, ?_, ?_⟩
  · intro hact
    by_contra hland
    have := (animateTick_continues h hland).1
    rw [this] at hact
    exact absurd hact (by simp)
  · intro hland
    rw [animateTick_lands h hland]
  · intro hland
    exact animateTick_lands h hland
  · intro hland
    exact animateTick_continues h hland

/-- Witness for C3: one tick of the just-fired flight, 100 ms in. -/
theorem tick_landing_iff_witness :
    ((animateTick 100 firedState).projectileActive = false ↔
      ((calculateTrajectory firedState.flight.angle firedState.flight.v0
          ((100 - firedState.flight.startTime) / 1000) firedState.flight.y0).2 < 0 ∨
        (100 - firedState.flight.startTime) / 1000 > firedState.flight.timeOfFlight + 0.1)) ∧
    (((calculateTrajectory firedState.flight.angle firedState.flight.v0
          ((100 - firedState.flight.startTime) / 1000) firedState.flight.y0).2 < 0 ∨
        (100 - firedState.flight.startTime) / 1000 > firedState.flight.timeOfFlight + 0.1) →
      animateTick 100 firedState =
        { firedState with
            projectileActive := false
            projectileVisible := false
            isFiring := false
            showPanel := true }) ∧
    (¬ ((calculateTrajectory firedState.flight.angle firedState.flight.v0
          ((100 - firedState.flight.startTime) / 1000) firedState.flight.y0).2 < 0 ∨
        (100 - firedState.flight.startTime) / 1000 > firedState.flight.timeOfFlight + 0.1) →
      (animateTick 100 firedState).projectileActive = true ∧
      (animateTick 100 firedState).projectilePos =
        (firedState.flight.startX + (calculateTrajectory firedState.flight.angle
            firedState.flight.v0 ((100 - firedState.flight.startTime) / 1000)
            firedState.flight.y0).1,
          (calculateTrajectory firedState.flight.angle firedState.flight.v0
            ((100 - firedState.flight.startTime) / 1000) firedState.flight.y0).2, 0)) :=
  tick_landing_iff firedState 100 ((100 - firedState.flight.startTime) / 1000)
    (calculateTrajectory firedState.flight.angle firedState.flight.v0
      ((100 - firedState.flight.startTime) / 1000) firedState.flight.y0) rfl rfl rfl
